import Mathlib

/-!
Shallow embedding of the `research-agent` package of the `langgraph-stack`
repository: the document-indexing graph node (`index-graph/graph.ts`),
retriever construction (`shared/retrieval.ts`) and configuration defaulting
(`shared/configuration.ts`, `retrieval-graph/configuration.ts`), together
with theorems about their behaviour.

JavaScript runtime values are embedded as follows: an optional field of a
`configurable` record becomes `Option`, an environment variable lookup
becomes a function `String → Option String`, JavaScript string falsiness
(`undefined`, `null` and `""` are falsy) is made explicit in the helper
functions, promise-returning functions that may throw become `Except String`,
and the external effects performed by the indexing node (file read, vector
store writes) are recorded in an explicit event trace.
-/

namespace LanggraphStack

/-- Canonical document shape submitted to the document store:
content plus a string-keyed metadata mapping. -/
structure Doc where
  content : String
  metadata : List (String × String)
deriving DecidableEq, Repr

/-- A raw, possibly heterogeneous document record as it appears in an
uploaded batch or in the JSON docs file: either a bare string or an object
carrying content and metadata. -/
inductive RawDoc where
  | str (s : String)
  | obj (content : String) (metadata : List (String × String))
deriving DecidableEq, Repr

/-- Modelled from the spec: `reduceDocs` from `shared/state.ts`, which is not
part of the provided sources. Per the spec's DocumentIndexer contract it
"performs a reduce/normalize step: raw heterogeneous document records are
converted into the canonical document shape (content + metadata)", appending
to the existing collection. -/
def reduceDocs (existing : List Doc) (newDocs : List RawDoc) : List Doc :=
  existing ++ newDocs.map fun r =>
    match r with
    | RawDoc.str s => { content := s, metadata := [] }
    | RawDoc.obj c m => { content := c, metadata := m }

/-- The recognized entries of a `RunnableConfig.configurable` record.
Every field is optional, mirroring the `Partial<...State>` cast in the
TypeScript sources; `none` is JavaScript `undefined`. -/
structure Configurable where
  embeddingModel : Option String := none
  retrieverProvider : Option String := none
  searchKwargs : Option (List (String × String)) := none
  queryModel : Option String := none
  responseModel : Option String := none
  routerSystemPrompt : Option String := none
  moreInfoSystemPrompt : Option String := none
  generalSystemPrompt : Option String := none
  researchPlanSystemPrompt : Option String := none
  generateQueriesSystemPrompt : Option String := none
  responseSystemPrompt : Option String := none
  docsFile : Option String := none
deriving DecidableEq, Repr

/-- A `RunnableConfig` as the configuration functions consume it: only its
optional `configurable` record is read. -/
structure RunnableConfig where
  configurable : Option Configurable := none
deriving DecidableEq, Repr

/-- JavaScript `value || default` for an optional string field: `undefined`
and the empty string are falsy, every other string is truthy. -/
def orDefaultStr (v : Option String) (d : String) : String :=
  match v with
  | none => d
  | some s => if s = "" then d else s

/-- The normalized base configuration (`BaseConfigurationAnnotation.State`):
every field present. `retrieverProvider` is kept as a runtime string, as the
TypeScript union type is erased at runtime. -/
structure BaseConfiguration where
  embeddingModel : String
  retrieverProvider : String
  searchKwargs : List (String × String)
deriving DecidableEq, Repr

/-- `ensureBaseConfiguration` from `shared/configuration.ts`: reads
`config.configurable` (an absent record behaves as empty) and fills each
field with its default via JavaScript `||`. -/
def ensureBaseConfiguration (config : RunnableConfig) : BaseConfiguration :=
  let configurable := config.configurable.getD {}
  { embeddingModel :=
      orDefaultStr configurable.embeddingModel "gemini/gemini-embedding-001"
    retrieverProvider :=
      orDefaultStr configurable.retrieverProvider "elastic-local"
    searchKwargs := configurable.searchKwargs.getD [] }

/-- Modelled from the spec: `ROUTER_SYSTEM_PROMPT` from
`retrieval-graph/prompts.ts`, which is not part of the provided sources; the
exact prompt text is unspecified, only its role as the default of
`routerSystemPrompt`. -/
def ROUTER_SYSTEM_PROMPT : String := "router system prompt constant"

/-- Modelled from the spec: `MORE_INFO_SYSTEM_PROMPT` from
`retrieval-graph/prompts.ts` (not in the provided sources). -/
def MORE_INFO_SYSTEM_PROMPT : String := "more info system prompt constant"

/-- Modelled from the spec: `GENERAL_SYSTEM_PROMPT` from
`retrieval-graph/prompts.ts` (not in the provided sources). -/
def GENERAL_SYSTEM_PROMPT : String := "general system prompt constant"

/-- Modelled from the spec: `RESEARCH_PLAN_SYSTEM_PROMPT` from
`retrieval-graph/prompts.ts` (not in the provided sources). -/
def RESEARCH_PLAN_SYSTEM_PROMPT : String := "research plan system prompt constant"

/-- Modelled from the spec: `GENERATE_QUERIES_SYSTEM_PROMPT` from
`retrieval-graph/prompts.ts` (not in the provided sources). -/
def GENERATE_QUERIES_SYSTEM_PROMPT : String := "generate queries system prompt constant"

/-- Modelled from the spec: `RESPONSE_SYSTEM_PROMPT` from
`retrieval-graph/prompts.ts` (not in the provided sources). -/
def RESPONSE_SYSTEM_PROMPT : String := "response system prompt constant"

/-- The normalized agent configuration (`AgentConfigurationAnnotation.State`). -/
structure AgentConfiguration extends BaseConfiguration where
  queryModel : String
  responseModel : String
  routerSystemPrompt : String
  moreInfoSystemPrompt : String
  generalSystemPrompt : String
  researchPlanSystemPrompt : String
  generateQueriesSystemPrompt : String
  responseSystemPrompt : String
deriving DecidableEq, Repr

/-- `ensureAgentConfiguration` from `retrieval-graph/configuration.ts`:
spreads the base configuration and fills every agent-specific field with its
default via JavaScript `||`. -/
def ensureAgentConfiguration (config : RunnableConfig) : AgentConfiguration :=
  let configurable := config.configurable.getD {}
  let baseConfig := ensureBaseConfiguration config
  { toBaseConfiguration := baseConfig
    queryModel := orDefaultStr configurable.queryModel "gemini/gemini-2.5-flash"
    responseModel := orDefaultStr configurable.responseModel "gemini/gemini-2.5-flash"
    routerSystemPrompt :=
      orDefaultStr configurable.routerSystemPrompt ROUTER_SYSTEM_PROMPT
    moreInfoSystemPrompt :=
      orDefaultStr configurable.moreInfoSystemPrompt MORE_INFO_SYSTEM_PROMPT
    generalSystemPrompt :=
      orDefaultStr configurable.generalSystemPrompt GENERAL_SYSTEM_PROMPT
    researchPlanSystemPrompt :=
      orDefaultStr configurable.researchPlanSystemPrompt RESEARCH_PLAN_SYSTEM_PROMPT
    generateQueriesSystemPrompt :=
      orDefaultStr configurable.generateQueriesSystemPrompt GENERATE_QUERIES_SYSTEM_PROMPT
    responseSystemPrompt :=
      orDefaultStr configurable.responseSystemPrompt RESPONSE_SYSTEM_PROMPT }

/-- Modelled from the spec: the default value of the `docsFile` option of the
index graph's configuration (`index-graph/configuration.ts`, not in the
provided sources): "the configured fallback source (the configured
docsFile)"; the exact default path is unspecified. -/
def DEFAULT_DOCS_FILE : String := "default docs file path"

/-- The normalized index configuration: the base configuration plus the
`docsFile` fallback source. -/
structure IndexConfiguration extends BaseConfiguration where
  docsFile : String
deriving DecidableEq, Repr

/-- Modelled from the spec: `ensureIndexConfiguration` from
`index-graph/configuration.ts`, which is not part of the provided sources;
per the spec's runtime-configuration contract every recognized option has a
documented default applied at construction, so `docsFile` defaults like the
other options. -/
def ensureIndexConfiguration (config : RunnableConfig) : IndexConfiguration :=
  let configurable := config.configurable.getD {}
  { toBaseConfiguration := ensureBaseConfiguration config
    docsFile := orDefaultStr configurable.docsFile DEFAULT_DOCS_FILE }

/-- The process environment: a lookup from variable names to values; `none`
is an absent variable. -/
def Env : Type := String → Option String

/-- Reads an environment variable the way a JavaScript truthiness check
(`if (!x) throw`) sees it: an absent variable and an empty value both count
as missing. -/
def envTruthy (env : Env) (name : String) : Option String :=
  match env name with
  | none => none
  | some s => if s = "" then none else some s

/-- An embeddings instance, one variant per supported embedding provider
(`GeminiEmbeddings`, `OpenAIEmbeddings`, `CohereEmbeddings`). -/
inductive Embeddings where
  | gemini (model : String)
  | openai (model : String)
  | cohere (model : String)
deriving DecidableEq, Repr

/-- Splits a character list at the first occurrence of a slash, mirroring
`modelName.indexOf("/")` followed by the two `slice` calls: `none` when no
slash occurs, otherwise the parts before and after the first slash. -/
def splitFirstSlash : List Char → Option (List Char × List Char)
  | [] => none
  | c :: cs =>
    if c = '/' then some ([], cs)
    else (splitFirstSlash cs).map fun p => (c :: p.1, p.2)

/-- The provider/model parse performed by `makeTextEmbeddings`: when the
name has no slash the provider defaults to `"gemini"` and the whole string
is the model; otherwise the string is cut at the first slash. -/
def parseModelName (modelName : String) : String × String :=
  match splitFirstSlash modelName.data with
  | none => ("gemini", modelName)
  | some p => (String.mk p.1, String.mk p.2)

/-- `makeTextEmbeddings` from `shared/retrieval.ts`: parses the
provider-qualified model name and instantiates the matching embeddings
provider, throwing on an unsupported provider. -/
def makeTextEmbeddings (modelName : String) : Except String Embeddings :=
  if (parseModelName modelName).1 = "gemini" then
    Except.ok (Embeddings.gemini (parseModelName modelName).2)
  else if (parseModelName modelName).1 = "openai" then
    Except.ok (Embeddings.openai (parseModelName modelName).2)
  else if (parseModelName modelName).1 = "cohere" then
    Except.ok (Embeddings.cohere (parseModelName modelName).2)
  else
    Except.error ("Unsupported embedding provider: " ++ (parseModelName modelName).1)

/-- Elasticsearch client authentication: basic auth for `elastic-local`,
API key otherwise. -/
inductive ElasticAuth where
  | basic (username password : String)
  | apiKey (key : String)
deriving DecidableEq, Repr

/-- A constructed vector-store retriever, carrying the backend-specific
connection data and the search filter it was built with. -/
inductive Retriever where
  | elastic (url : String) (auth : ElasticAuth) (indexName : String)
      (embeddings : Embeddings) (filter : List (String × String))
  | pinecone (indexName : String) (embeddings : Embeddings)
      (filter : List (String × String))
  | mongodb (uri dbName collectionName textKey embeddingKey indexName : String)
      (embeddings : Embeddings) (filter : List (String × String))
deriving DecidableEq, Repr

/-- The three retrieval backends. -/
inductive Backend where
  | elastic
  | pinecone
  | mongodb
deriving DecidableEq, Repr

/-- The backend a constructed retriever talks to. -/
def Retriever.backend : Retriever → Backend
  | Retriever.elastic _ _ _ _ _ => Backend.elastic
  | Retriever.pinecone _ _ _ => Backend.pinecone
  | Retriever.mongodb _ _ _ _ _ _ _ _ => Backend.mongodb

/-- `makeElasticRetriever` from `shared/retrieval.ts`: requires
`ELASTICSEARCH_URL`, then basic auth from `ELASTICSEARCH_USER` and
`ELASTICSEARCH_PASSWORD` when the provider is `elastic-local`, or
`ELASTICSEARCH_API_KEY` otherwise; builds a retriever on index
`langchain_index` filtered by `searchKwargs`. -/
def makeElasticRetriever (env : Env) (configuration : BaseConfiguration)
    (embeddingModel : Embeddings) : Except String Retriever :=
  match envTruthy env "ELASTICSEARCH_URL" with
  | none => Except.error "ELASTICSEARCH_URL environment variable is not defined"
  | some elasticUrl =>
    match
      (if configuration.retrieverProvider = "elastic-local" then
        match envTruthy env "ELASTICSEARCH_USER",
              envTruthy env "ELASTICSEARCH_PASSWORD" with
        | some username, some password => Except.ok (ElasticAuth.basic username password)
        | _, _ =>
          Except.error
            "ELASTICSEARCH_USER or ELASTICSEARCH_PASSWORD environment variable is not defined"
      else
        match envTruthy env "ELASTICSEARCH_API_KEY" with
        | none =>
          Except.error "ELASTICSEARCH_API_KEY environment variable is not defined"
        | some apiKey => Except.ok (ElasticAuth.apiKey apiKey) :
          Except String ElasticAuth) with
    | Except.error e => Except.error e
    | Except.ok auth =>
      Except.ok
        (Retriever.elastic elasticUrl auth "langchain_index" embeddingModel
          configuration.searchKwargs)

/-- `makePineconeRetriever` from `shared/retrieval.ts`: requires
`PINECONE_INDEX_NAME` and builds a retriever over the existing Pinecone
index filtered by `searchKwargs`. -/
def makePineconeRetriever (env : Env) (configuration : BaseConfiguration)
    (embeddingModel : Embeddings) : Except String Retriever :=
  match envTruthy env "PINECONE_INDEX_NAME" with
  | none => Except.error "PINECONE_INDEX_NAME environment variable is not defined"
  | some indexName =>
    Except.ok (Retriever.pinecone indexName embeddingModel configuration.searchKwargs)

/-- `makeMongoDBRetriever` from `shared/retrieval.ts`: requires
`MONGODB_URI` and builds a retriever over the
`langgraph_retrieval_agent.default` namespace with text key `text`,
embedding key `embedding` and index `vector_index`. -/
def makeMongoDBRetriever (env : Env) (configuration : BaseConfiguration)
    (embeddingModel : Embeddings) : Except String Retriever :=
  match envTruthy env "MONGODB_URI" with
  | none => Except.error "MONGODB_URI environment variable is not defined"
  | some uri =>
    Except.ok
      (Retriever.mongodb uri "langgraph_retrieval_agent" "default" "text"
        "embedding" "vector_index" embeddingModel configuration.searchKwargs)

/-- `makeRetriever` from `shared/retrieval.ts`: normalizes the
configuration, builds the embeddings, then dispatches on
`retrieverProvider` — `elastic` and `elastic-local` both go to the
Elasticsearch maker — and throws on an unrecognized provider. -/
def makeRetriever (env : Env) (config : RunnableConfig) : Except String Retriever :=
  match makeTextEmbeddings (ensureBaseConfiguration config).embeddingModel with
  | Except.error e => Except.error e
  | Except.ok embeddingModel =>
    if (ensureBaseConfiguration config).retrieverProvider = "elastic"
        ∨ (ensureBaseConfiguration config).retrieverProvider = "elastic-local" then
      makeElasticRetriever env (ensureBaseConfiguration config) embeddingModel
    else if (ensureBaseConfiguration config).retrieverProvider = "pinecone" then
      makePineconeRetriever env (ensureBaseConfiguration config) embeddingModel
    else if (ensureBaseConfiguration config).retrieverProvider = "mongodb" then
      makeMongoDBRetriever env (ensureBaseConfiguration config) embeddingModel
    else
      Except.error
        ("Unrecognized retrieverProvider in configuration: "
          ++ (ensureBaseConfiguration config).retrieverProvider)

/-- Whether an `Except` result is a success. -/
def exceptOk {α : Type} : Except String α → Bool
  | Except.ok _ => true
  | Except.error _ => false

/-- The state of the index graph (`IndexStateAnnotation.State`): the `docs`
channel holds canonical documents. -/
structure IndexState where
  docs : List Doc
deriving DecidableEq, Repr

/-- Modelled from the spec: the `docs` channel of `IndexStateAnnotation`
(`index-graph/state.ts`, not in the provided sources) accepts raw document
records and normalizes them with `reduceDocs` — per the spec, raw records
are "converted into the canonical document shape (content + metadata)
before submission to DocumentStore"; submitting a batch therefore reduces
it into the state. -/
def submitBatch (batch : List RawDoc) : IndexState :=
  { docs := reduceDocs [] batch }

/-- An external effect performed by the indexing node: reading the docs
file, adding an acknowledged batch to the document store, or querying the
store. -/
inductive Event where
  | fileRead (path : String)
  | storeAdd (docs : List Doc)
  | storeQuery (q : String)
deriving DecidableEq, Repr

/-- The update `indexDocs` returns for the `docs` channel: the sentinel
`"delete"`. -/
inductive DocsUpdate where
  | delete
deriving DecidableEq, Repr

/-- The state update returned by `indexDocs`. -/
structure IndexUpdate where
  docs : DocsUpdate
deriving DecidableEq, Repr

/-- The file system together with JSON parsing, as `indexDocs` uses them:
reading and parsing the docs file either yields raw document records or
fails (missing file, invalid JSON). -/
def Fs : Type := String → Except String (List RawDoc)

/-- The document store's `addDocuments` behaviour: acknowledging a batch or
failing. -/
def Store : Type := List Doc → Except String Unit

/-- The tail of `indexDocs` (`index-graph/graph.ts` lines 44-47) once the
documents to index are determined: build the retriever with
`makeRetriever`, await `retriever.addDocuments(docs)`, and only then return the delete-docs
update; a `storeAdd` event records the acknowledged batch. -/
def indexAndReport (env : Env) (store : Store) (config : RunnableConfig)
    (docs : List Doc) (trace : List Event) :
    List Event × Except String IndexUpdate :=
  match makeRetriever env config with
  | Except.error e => (trace, Except.error e)
  | Except.ok _ =>
    match store docs with
    | Except.error e => (trace, Except.error e)
    | Except.ok _ =>
      (trace ++ [Event.storeAdd docs], Except.ok { docs := DocsUpdate.delete })

/-- `indexDocs` from `index-graph/graph.ts`: requires a config, normalizes
it, falls back to reading and reducing the configured `docsFile` when the
state's docs are empty, indexes the documents through the retriever, and
returns the delete-docs update. The returned trace records the external
effects in order. -/
def indexDocs (env : Env) (fs : Fs) (store : Store) (state : IndexState)
    (config : Option RunnableConfig) :
    List Event × Except String IndexUpdate :=
  match config with
  | none => ([], Except.error "Configuration required to run index_docs.")
  | some config =>
    if state.docs.isEmpty then
      match fs (ensureIndexConfiguration config).docsFile with
      | Except.error e =>
        ([Event.fileRead (ensureIndexConfiguration config).docsFile], Except.error e)
      | Except.ok serializedDocs =>
        indexAndReport env store config (reduceDocs [] serializedDocs)
          [Event.fileRead (ensureIndexConfiguration config).docsFile]
    else
      indexAndReport env store config state.docs []

/-- The file paths read in a trace, in order. -/
def readsOf : List Event → List String
  | [] => []
  | Event.fileRead p :: rest => p :: readsOf rest
  | _ :: rest => readsOf rest

/-- The acknowledged store-addition batches in a trace, in order. -/
def addsOf : List Event → List (List Doc)
  | [] => []
  | Event.storeAdd ds :: rest => ds :: addsOf rest
  | _ :: rest => addsOf rest

/-- The store queries in a trace, in order. -/
def queriesOf : List Event → List String
  | [] => []
  | Event.storeQuery q :: rest => q :: queriesOf rest
  | _ :: rest => queriesOf rest

/-- The provider values enumerated by the configuration's
`retrieverProvider` union type. -/
def enumeratedProviders : List String :=
  ["elastic", "elastic-local", "pinecone", "mongodb"]

/-- The backend `makeRetriever`'s dispatch associates with a provider
value: both Elasticsearch providers share the elastic backend. -/
def providerBackend (provider : String) : Option Backend :=
  if provider = "elastic" ∨ provider = "elastic-local" then some Backend.elastic
  else if provider = "pinecone" then some Backend.pinecone
  else if provider = "mongodb" then some Backend.mongodb
  else none

/-- The credential environment variables the selected provider requires, as
enumerated in the error-handling contract. -/
def requiredCredentialMissing (provider : String) (env : Env) : Prop :=
  (provider = "elastic-local" ∧
    (env "ELASTICSEARCH_URL" = none ∨ env "ELASTICSEARCH_USER" = none ∨
      env "ELASTICSEARCH_PASSWORD" = none)) ∨
  (provider = "elastic" ∧
    (env "ELASTICSEARCH_URL" = none ∨ env "ELASTICSEARCH_API_KEY" = none)) ∨
  (provider = "pinecone" ∧ env "PINECONE_INDEX_NAME" = none) ∨
  (provider = "mongodb" ∧ env "MONGODB_URI" = none)

/-- A fully populated environment, used to exercise the successful paths on
concrete inputs. -/
def envFull : Env := fun name =>
  if name = "ELASTICSEARCH_URL" then some "http://localhost:9200"
  else if name = "ELASTICSEARCH_USER" then some "elastic"
  else if name = "ELASTICSEARCH_PASSWORD" then some "password"
  else if name = "ELASTICSEARCH_API_KEY" then some "key"
  else if name = "PINECONE_INDEX_NAME" then some "docs-index"
  else if name = "MONGODB_URI" then some "mongodb://localhost"
  else none

/-- An environment with every variable absent. -/
def envEmpty : Env := fun _ => none

/-- A store that acknowledges every batch. -/
def storeOk : Store := fun _ => Except.ok ()

/-- A sample raw batch. -/
def sampleRaw : List RawDoc :=
  [RawDoc.obj "sample content" [("source", "sample")], RawDoc.str "plain text"]

/-- A file system whose every path holds the sample batch. -/
def fsSample : Fs := fun _ => Except.ok sampleRaw

/-- A runnable config with an empty configurable record: every option takes
its default. -/
def configDefaults : RunnableConfig := { configurable := some {} }

/-- A configurable record with every string option explicitly set to the
empty string. -/
def configAllEmpty : Configurable :=
  { embeddingModel := some ""
    retrieverProvider := some ""
    searchKwargs := some []
    queryModel := some ""
    responseModel := some ""
    routerSystemPrompt := some ""
    moreInfoSystemPrompt := some ""
    generalSystemPrompt := some ""
    researchPlanSystemPrompt := some ""
    generateQueriesSystemPrompt := some ""
    responseSystemPrompt := some ""
    docsFile := some "" }

/-- A configurable record with one option set to a non-empty value. -/
def configOneSet : Configurable :=
  { embeddingModel := some "openai/text-embedding-3-small" }

/-- A successful `indexAndReport` acknowledged the full batch in the store,
appended exactly one `storeAdd` event for it at the end of the trace, and
returned the delete-docs update. -/
theorem indexAndReport_ok (env : Env) (store : Store) (config : RunnableConfig)
    (docs : List Doc) (trace trace' : List Event) (u : IndexUpdate)
    (h : indexAndReport env store config docs trace = (trace', Except.ok u)) :
    store docs = Except.ok () ∧ trace' = trace ++ [Event.storeAdd docs] ∧
      u = { docs := DocsUpdate.delete } := by
  unfold indexAndReport at h
  cases hm : makeRetriever env config with
  | error e => rw [hm] at h; simp at h
  | ok r =>
    rw [hm] at h
    cases hs : store docs with
    | error e => rw [hs] at h; simp at h
    | ok v =>
      rw [hs] at h
      simp only [Prod.mk.injEq, Except.ok.injEq] at h
      refine ⟨rfl, h.1.symm, ?_⟩
      cases u with
      | mk d => cases d; rfl

/-- A failed retriever construction leaves the trace of `indexAndReport`
unchanged: no store addition happens. -/
theorem indexAndReport_trace_of_retriever_err (env : Env) (store : Store)
    (config : RunnableConfig) (docs : List Doc) (trace : List Event)
    (h : exceptOk (makeRetriever env config) = false) :
    (indexAndReport env store config docs trace).1 = trace := by
  unfold indexAndReport
  cases hm : makeRetriever env config with
  | error e => rfl
  | ok r => rw [hm] at h; simp [exceptOk] at h

/-- When retriever construction fails, `indexDocs` performs no store
addition on any input. -/
theorem indexDocs_adds_of_retriever_err (env : Env) (fs : Fs) (store : Store)
    (state : IndexState) (config : RunnableConfig)
    (h : exceptOk (makeRetriever env config) = false) :
    addsOf (indexDocs env fs store state (some config)).1 = [] := by
  simp only [indexDocs]
  split
  · split
    · simp [addsOf]
    · rw [indexAndReport_trace_of_retriever_err env store config _ _ h]
      simp [addsOf]
  · rw [indexAndReport_trace_of_retriever_err env store config _ _ h]
    simp [addsOf]

/-- An empty boolean check means the list is nil. -/
theorem list_isEmpty_eq_nil {α : Type} (l : List α) (h : l.isEmpty = true) :
    l = [] := by
  cases l with
  | nil => rfl
  | cons a t => simp [List.isEmpty] at h

/-- `addsOf` distributes over trace concatenation. -/
theorem addsOf_append (l₁ l₂ : List Event) :
    addsOf (l₁ ++ l₂) = addsOf l₁ ++ addsOf l₂ := by
  induction l₁ with
  | nil => rfl
  | cons e rest ih => cases e <;> simp [addsOf, ih]

/-- `readsOf` distributes over trace concatenation. -/
theorem readsOf_append (l₁ l₂ : List Event) :
    readsOf (l₁ ++ l₂) = readsOf l₁ ++ readsOf l₂ := by
  induction l₁ with
  | nil => rfl
  | cons e rest ih => cases e <;> simp [readsOf, ih]

/-- When the retriever is constructed and the store acknowledges,
`indexAndReport` appends the acknowledged batch to the trace and returns
the delete-docs update. -/
theorem indexAndReport_success (env : Env) (store : Store)
    (config : RunnableConfig) (docs : List Doc) (trace : List Event)
    (hr : exceptOk (makeRetriever env config) = true)
    (hs : store docs = Except.ok ()) :
    indexAndReport env store config docs trace
      = (trace ++ [Event.storeAdd docs], Except.ok { docs := DocsUpdate.delete }) := by
  unfold indexAndReport
  cases hm : makeRetriever env config with
  | error e => rw [hm] at hr; simp [exceptOk] at hr
  | ok r => rw [hs]

/-- The trace of `indexAndReport` is the given trace, possibly extended by
one `storeAdd` of exactly the batch it was given. -/
theorem indexAndReport_trace_cases (env : Env) (store : Store)
    (config : RunnableConfig) (docs : List Doc) (trace : List Event) :
    (indexAndReport env store config docs trace).1 = trace ∨
    (indexAndReport env store config docs trace).1
      = trace ++ [Event.storeAdd docs] := by
  unfold indexAndReport
  cases makeRetriever env config with
  | error e => exact Or.inl rfl
  | ok r =>
    cases store docs with
    | error e => exact Or.inl rfl
    | ok v => exact Or.inr rfl

/-- C10: invoking `indexDocs` with no `RunnableConfig` raises the error
`Configuration required to run index_docs.` before performing any side
effect: the trace is empty, so no file is read and no document is added to
the store. -/
theorem indexDocs_requires_config (env : Env) (fs : Fs) (store : Store)
    (state : IndexState) :
    indexDocs env fs store state none
        = ([], Except.error "Configuration required to run index_docs.") ∧
    readsOf (indexDocs env fs store state none).1 = [] ∧
    addsOf (indexDocs env fs store state none).1 = [] ∧
    queriesOf (indexDocs env fs store state none).1 = [] :=
  ⟨rfl, rfl, rfl, rfl⟩

/-- C7: every successful run of `indexDocs` returns exactly the update
deleting the `docs` channel, so the submitted batch is cleared from the
graph state. -/
theorem indexDocs_returns_delete_docs (env : Env) (fs : Fs) (store : Store)
    (state : IndexState) (config : Option RunnableConfig) (trace : List Event)
    (u : IndexUpdate)
    (h : indexDocs env fs store state config = (trace, Except.ok u)) :
    u = { docs := DocsUpdate.delete } := by
  cases config with
  | none => simp [indexDocs] at h
  | some c =>
    simp only [indexDocs] at h
    split at h
    · split at h
      · simp at h
      · exact (indexAndReport_ok _ _ _ _ _ _ _ h).2.2
    · exact (indexAndReport_ok _ _ _ _ _ _ _ h).2.2

/-- Witness for C7 at a concrete successful run. -/
theorem indexDocs_returns_delete_docs_witness :
    indexDocs envFull fsSample storeOk (submitBatch sampleRaw) (some configDefaults)
        = ([Event.storeAdd (reduceDocs [] sampleRaw)],
            Except.ok { docs := DocsUpdate.delete }) ∧
    ({ docs := DocsUpdate.delete } : IndexUpdate) = { docs := DocsUpdate.delete } :=
  ⟨rfl,
    indexDocs_returns_delete_docs envFull fsSample storeOk (submitBatch sampleRaw)
      (some configDefaults) [Event.storeAdd (reduceDocs [] sampleRaw)]
      { docs := DocsUpdate.delete } rfl⟩

/-- C6: `indexDocs` never returns successfully before the store has
acknowledged the full batch: on every successful run the trace ends with
the acknowledged `storeAdd` of the indexed batch, which is the submitted
batch whenever the submitted batch was non-empty. -/
theorem indexDocs_returns_after_store_ack (env : Env) (fs : Fs) (store : Store)
    (state : IndexState) (config : Option RunnableConfig) (trace : List Event)
    (u : IndexUpdate)
    (h : indexDocs env fs store state config = (trace, Except.ok u)) :
    ∃ pre docs, trace = pre ++ [Event.storeAdd docs] ∧
      store docs = Except.ok () ∧ (state.docs ≠ [] → docs = state.docs) := by
  cases config with
  | none => simp [indexDocs] at h
  | some c =>
    simp only [indexDocs] at h
    split at h
    · rename_i hempty
      split at h
      · simp at h
      · obtain ⟨hst, htr, hu⟩ := indexAndReport_ok _ _ _ _ _ _ _ h
        exact ⟨_, _, htr, hst,
          fun hne => absurd (list_isEmpty_eq_nil _ hempty) hne⟩
    · obtain ⟨hst, htr, hu⟩ := indexAndReport_ok _ _ _ _ _ _ _ h
      exact ⟨_, _, htr, hst, fun _ => rfl⟩

/-- Witness for C6 at a concrete successful run. -/
theorem indexDocs_returns_after_store_ack_witness :
    indexDocs envFull fsSample storeOk (submitBatch sampleRaw) (some configDefaults)
        = ([Event.storeAdd (reduceDocs [] sampleRaw)],
            Except.ok { docs := DocsUpdate.delete }) ∧
    (∃ pre docs,
      ([Event.storeAdd (reduceDocs [] sampleRaw)] : List Event)
          = pre ++ [Event.storeAdd docs] ∧
      storeOk docs = Except.ok () ∧
      ((submitBatch sampleRaw).docs ≠ [] → docs = (submitBatch sampleRaw).docs)) :=
  ⟨rfl,
    indexDocs_returns_after_store_ack envFull fsSample storeOk (submitBatch sampleRaw)
      (some configDefaults) [Event.storeAdd (reduceDocs [] sampleRaw)]
      { docs := DocsUpdate.delete } rfl⟩

/-- A non-nil list is not boolean-empty. -/
theorem list_isEmpty_eq_false {α : Type} (l : List α) (h : l ≠ []) :
    l.isEmpty = false := by
  cases l with
  | nil => exact absurd rfl h
  | cons a t => rfl

/-- Reducing a non-empty raw batch yields a non-empty document list. -/
theorem reduceDocs_ne_nil (raw : List RawDoc) (h : raw ≠ []) :
    reduceDocs [] raw ≠ [] := by
  cases raw with
  | nil => exact absurd rfl h
  | cons r rest => simp [reduceDocs]

/-- Full trace characterization of `indexDocs` under a present config:
the empty-batch run reads the docs file and indexes its reduced contents,
the non-empty run reads nothing and indexes the state's documents. -/
theorem indexDocs_trace_spec (env : Env) (fs : Fs) (store : Store)
    (state : IndexState) (config : RunnableConfig) (raw : List RawDoc)
    (hfs : fs (ensureIndexConfiguration config).docsFile = Except.ok raw) :
    (state.docs = [] →
      readsOf (indexDocs env fs store state (some config)).1
          = [(ensureIndexConfiguration config).docsFile] ∧
      (∀ ds ∈ addsOf (indexDocs env fs store state (some config)).1,
          ds = reduceDocs [] raw) ∧
      (exceptOk (makeRetriever env config) = true →
        store (reduceDocs [] raw) = Except.ok () →
        addsOf (indexDocs env fs store state (some config)).1
            = [reduceDocs [] raw])) ∧
    (state.docs ≠ [] →
      readsOf (indexDocs env fs store state (some config)).1 = [] ∧
      (∀ ds ∈ addsOf (indexDocs env fs store state (some config)).1,
          ds = state.docs) ∧
      (exceptOk (makeRetriever env config) = true →
        store state.docs = Except.ok () →
        addsOf (indexDocs env fs store state (some config)).1
            = [state.docs])) := by
  constructor
  · intro h0
    have hempty : state.docs.isEmpty = true := by simp [h0]
    simp only [indexDocs, hempty, if_true, hfs]
    refine ⟨?_, ?_, ?_⟩
    · rcases indexAndReport_trace_cases env store config (reduceDocs [] raw)
          [Event.fileRead (ensureIndexConfiguration config).docsFile] with h | h <;>
        rw [h] <;> simp [readsOf, readsOf_append]
    · intro ds hds
      rcases indexAndReport_trace_cases env store config (reduceDocs [] raw)
          [Event.fileRead (ensureIndexConfiguration config).docsFile] with h | h <;>
          rw [h] at hds <;> simp [addsOf, addsOf_append] at hds
      exact hds
    · intro hr hs
      rw [indexAndReport_success env store config _ _ hr hs]
      simp [addsOf, addsOf_append]
  · intro h0
    have hempty : state.docs.isEmpty = false := list_isEmpty_eq_false _ h0
    simp only [indexDocs, hempty, Bool.false_eq_true, if_false]
    refine ⟨?_, ?_, ?_⟩
    · rcases indexAndReport_trace_cases env store config state.docs [] with h | h <;>
        rw [h] <;> simp [readsOf, readsOf_append]
    · intro ds hds
      rcases indexAndReport_trace_cases env store config state.docs [] with h | h <;>
          rw [h] at hds <;> simp [addsOf, addsOf_append] at hds
      exact hds
    · intro hr hs
      rw [indexAndReport_success env store config _ _ hr hs]
      simp [addsOf, addsOf_append]

/-- C1: `indexDocs` with an empty batch reads the configured `docsFile` and
indexes its reduced contents instead of failing; with a non-empty batch the
fallback file is never read and exactly the submitted documents are added
to the store. -/
theorem indexDocs_fallback_vs_batch (env : Env) (fs : Fs) (store : Store)
    (state : IndexState) (config : RunnableConfig) (raw : List RawDoc)
    (hfs : fs (ensureIndexConfiguration config).docsFile = Except.ok raw) :
    (state.docs = [] →
      readsOf (indexDocs env fs store state (some config)).1
          = [(ensureIndexConfiguration config).docsFile] ∧
      (∀ ds ∈ addsOf (indexDocs env fs store state (some config)).1,
          ds = reduceDocs [] raw) ∧
      (exceptOk (makeRetriever env config) = true →
        store (reduceDocs [] raw) = Except.ok () →
        addsOf (indexDocs env fs store state (some config)).1
            = [reduceDocs [] raw])) ∧
    (state.docs ≠ [] →
      readsOf (indexDocs env fs store state (some config)).1 = [] ∧
      (∀ ds ∈ addsOf (indexDocs env fs store state (some config)).1,
          ds = state.docs) ∧
      (exceptOk (makeRetriever env config) = true →
        store state.docs = Except.ok () →
        addsOf (indexDocs env fs store state (some config)).1
            = [state.docs])) :=
  indexDocs_trace_spec env fs store state config raw hfs

/-- Witness for C1: with the fully populated environment and default
configuration, the empty batch reads the sample file and indexes its
reduced contents, while the non-empty batch reads nothing and indexes
exactly the submitted documents. -/
theorem indexDocs_fallback_vs_batch_witness :
    readsOf (indexDocs envFull fsSample storeOk { docs := [] }
        (some configDefaults)).1
      = [(ensureIndexConfiguration configDefaults).docsFile] ∧
    addsOf (indexDocs envFull fsSample storeOk { docs := [] }
        (some configDefaults)).1
      = [reduceDocs [] sampleRaw] ∧
    readsOf (indexDocs envFull fsSample storeOk (submitBatch sampleRaw)
        (some configDefaults)).1 = [] ∧
    addsOf (indexDocs envFull fsSample storeOk (submitBatch sampleRaw)
        (some configDefaults)).1
      = [(submitBatch sampleRaw).docs] := by
  obtain ⟨hemp, _⟩ := indexDocs_fallback_vs_batch envFull fsSample storeOk
    { docs := [] } configDefaults sampleRaw rfl
  obtain ⟨_, hne⟩ := indexDocs_fallback_vs_batch envFull fsSample storeOk
    (submitBatch sampleRaw) configDefaults sampleRaw rfl
  have hne' : (submitBatch sampleRaw).docs ≠ [] := by decide
  exact ⟨(hemp rfl).1, (hemp rfl).2.2 rfl rfl, (hne hne').1, (hne hne').2.2 rfl rfl⟩

/-- C3: every batch the indexing operation hands to the store consists of
canonical documents produced by `reduceDocs` — from the submitted batch
when it is non-empty (the state channel reduces it on submission), and
from the fallback file's records when the batch is empty. -/
theorem indexDocs_docs_reduced_before_store (env : Env) (fs : Fs) (store : Store)
    (config : RunnableConfig) (raw fileRaw : List RawDoc)
    (hfs : fs (ensureIndexConfiguration config).docsFile = Except.ok fileRaw) :
    (raw ≠ [] →
      ∀ ds ∈ addsOf (indexDocs env fs store (submitBatch raw)
          (some config)).1,
        ds = reduceDocs [] raw) ∧
    (raw = [] →
      ∀ ds ∈ addsOf (indexDocs env fs store (submitBatch raw)
          (some config)).1,
        ds = reduceDocs [] fileRaw) := by
  constructor
  · intro h0
    have hdocs : (submitBatch raw).docs ≠ [] := reduceDocs_ne_nil raw h0
    intro ds hds
    have := ((indexDocs_trace_spec env fs store (submitBatch raw) config
      fileRaw hfs).2 hdocs).2.1 ds hds
    exact this
  · intro h0
    intro ds hds
    have hdocs : (submitBatch raw).docs = [] := by simp [submitBatch, h0, reduceDocs]
    exact ((indexDocs_trace_spec env fs store (submitBatch raw) config
      fileRaw hfs).1 hdocs).2.1 ds hds

/-- Witness for C3 on a concrete non-empty and a concrete empty batch. -/
theorem indexDocs_docs_reduced_before_store_witness :
    (∀ ds ∈ addsOf (indexDocs envFull fsSample storeOk (submitBatch sampleRaw)
        (some configDefaults)).1,
      ds = reduceDocs [] sampleRaw) ∧
    (∀ ds ∈ addsOf (indexDocs envFull fsSample storeOk (submitBatch [])
        (some configDefaults)).1,
      ds = reduceDocs [] sampleRaw) :=
  ⟨(indexDocs_docs_reduced_before_store envFull fsSample storeOk configDefaults
      sampleRaw sampleRaw rfl).1 (by decide),
   (indexDocs_docs_reduced_before_store envFull fsSample storeOk configDefaults
      [] sampleRaw rfl).2 rfl⟩

/-- Lists without a slash are never split. -/
theorem splitFirstSlash_eq_none (l : List Char) (h : '/' ∉ l) :
    splitFirstSlash l = none := by
  induction l with
  | nil => rfl
  | cons c cs ih =>
    simp only [List.mem_cons, not_or] at h
    have hc : ¬(c = '/') := fun hc => h.1 hc.symm
    simp [splitFirstSlash, hc, ih h.2]

/-- Splitting cuts at the first slash: everything before it is
slash-free. -/
theorem splitFirstSlash_append (l₁ l₂ : List Char) (h : '/' ∉ l₁) :
    splitFirstSlash (l₁ ++ '/' :: l₂) = some (l₁, l₂) := by
  induction l₁ with
  | nil => simp [splitFirstSlash]
  | cons c cs ih =>
    simp only [List.mem_cons, not_or] at h
    have hc : ¬(c = '/') := fun hc => h.1 hc.symm
    simp [splitFirstSlash, hc, ih h.2]

/-- A slash-free model name parses to the `gemini` provider with the whole
string as the model. -/
theorem parseModelName_no_slash (s : String) (h : '/' ∉ s.data) :
    parseModelName s = ("gemini", s) := by
  unfold parseModelName
  rw [splitFirstSlash_eq_none s.data h]

/-- A name with a slash parses into the part before the first slash and
the part after it. -/
theorem parseModelName_slash (p m : String) (h : '/' ∉ p.data) :
    parseModelName (p ++ "/" ++ m) = (p, m) := by
  have hd : (p ++ "/" ++ m).data = p.data ++ '/' :: m.data := by
    rw [String.data_append, String.data_append]
    simp
  unfold parseModelName
  rw [hd, splitFirstSlash_append p.data m.data h]

/-- C8: `makeTextEmbeddings` splits the model name at the first slash into
provider and model — provider `gemini` and the whole string as model when
no slash is present — and succeeds exactly when the parsed provider is
`gemini`, `openai` or `cohere`, raising the unsupported-provider error
otherwise. -/
theorem makeTextEmbeddings_parse_and_support (p m s name : String)
    (hp : '/' ∉ p.data) (hs : '/' ∉ s.data) :
    parseModelName s = ("gemini", s) ∧
    parseModelName (p ++ "/" ++ m) = (p, m) ∧
    (exceptOk (makeTextEmbeddings name) = true ↔
      ((parseModelName name).1 = "gemini" ∨ (parseModelName name).1 = "openai"
        ∨ (parseModelName name).1 = "cohere")) ∧
    (exceptOk (makeTextEmbeddings name) = false →
      makeTextEmbeddings name
        = Except.error
            ("Unsupported embedding provider: " ++ (parseModelName name).1)) := by
  refine ⟨parseModelName_no_slash s hs, parseModelName_slash p m hp, ?_, ?_⟩
  · by_cases h1 : (parseModelName name).1 = "gemini" <;>
    by_cases h2 : (parseModelName name).1 = "openai" <;>
    by_cases h3 : (parseModelName name).1 = "cohere" <;>
      simp [makeTextEmbeddings, exceptOk, h1, h2, h3]
  · intro h
    by_cases h1 : (parseModelName name).1 = "gemini" <;>
    by_cases h2 : (parseModelName name).1 = "openai" <;>
    by_cases h3 : (parseModelName name).1 = "cohere" <;>
      simp_all [makeTextEmbeddings, exceptOk, h1, h2, h3]

/-- Witness for C8 at concrete provider-qualified, bare and unsupported
model names. -/
theorem makeTextEmbeddings_parse_and_support_witness :
    parseModelName "gemini-embedding-001" = ("gemini", "gemini-embedding-001") ∧
    parseModelName ("openai" ++ "/" ++ "text-embedding-3-small")
        = ("openai", "text-embedding-3-small") ∧
    (exceptOk (makeTextEmbeddings "voyage/voyage-3") = true ↔
      ((parseModelName "voyage/voyage-3").1 = "gemini"
        ∨ (parseModelName "voyage/voyage-3").1 = "openai"
        ∨ (parseModelName "voyage/voyage-3").1 = "cohere")) ∧
    (exceptOk (makeTextEmbeddings "voyage/voyage-3") = false →
      makeTextEmbeddings "voyage/voyage-3"
        = Except.error
            ("Unsupported embedding provider: "
              ++ (parseModelName "voyage/voyage-3").1)) :=
  makeTextEmbeddings_parse_and_support "openai" "text-embedding-3-small"
    "gemini-embedding-001" "voyage/voyage-3" (by decide) (by decide)

/-- Counterexample to C5 as stated: `embeddingModel` is explicitly set (to
the empty string) yet the constructed configuration does not pass the set
value through — it substitutes the default, because the code tests
JavaScript falsiness rather than absence. -/
theorem ensureConfiguration_set_option_not_passed_through :
    ({ embeddingModel := some "" : Configurable }).embeddingModel = some "" ∧
    (ensureBaseConfiguration
        { configurable := some { embeddingModel := some "" } }).embeddingModel
      = "gemini/gemini-embedding-001" ∧
    ("gemini/gemini-embedding-001" : String) ≠ "" := by decide

/-- C5 (amended): `ensureBaseConfiguration` and `ensureAgentConfiguration`
always return a fully populated configuration: every recognized option that
is unset is filled with its documented default, and every option that is
set to a truthy value (for the string options, any non-empty string) is
passed through; a string option set to the empty string is replaced by its
default, since defaulting tests falsiness rather than absence. Defaulting
happens entirely at construction. -/
theorem ensureConfiguration_defaults_amended (config : RunnableConfig)
    (c : Configurable) (hc : config.configurable.getD {} = c) :
    ((c.embeddingModel = none →
        (ensureBaseConfiguration config).embeddingModel
          = "gemini/gemini-embedding-001") ∧
      (∀ v, c.embeddingModel = some v → v ≠ "" →
        (ensureBaseConfiguration config).embeddingModel = v)) ∧
    ((c.retrieverProvider = none →
        (ensureBaseConfiguration config).retrieverProvider = "elastic-local") ∧
      (∀ v, c.retrieverProvider = some v → v ≠ "" →
        (ensureBaseConfiguration config).retrieverProvider = v)) ∧
    ((c.searchKwargs = none →
        (ensureBaseConfiguration config).searchKwargs = []) ∧
      (∀ k, c.searchKwargs = some k →
        (ensureBaseConfiguration config).searchKwargs = k)) ∧
    ((c.queryModel = none →
        (ensureAgentConfiguration config).queryModel = "gemini/gemini-2.5-flash") ∧
      (∀ v, c.queryModel = some v → v ≠ "" →
        (ensureAgentConfiguration config).queryModel = v)) ∧
    ((c.responseModel = none →
        (ensureAgentConfiguration config).responseModel
          = "gemini/gemini-2.5-flash") ∧
      (∀ v, c.responseModel = some v → v ≠ "" →
        (ensureAgentConfiguration config).responseModel = v)) ∧
    ((c.routerSystemPrompt = none →
        (ensureAgentConfiguration config).routerSystemPrompt
          = ROUTER_SYSTEM_PROMPT) ∧
      (∀ v, c.routerSystemPrompt = some v → v ≠ "" →
        (ensureAgentConfiguration config).routerSystemPrompt = v)) ∧
    ((c.moreInfoSystemPrompt = none →
        (ensureAgentConfiguration config).moreInfoSystemPrompt
          = MORE_INFO_SYSTEM_PROMPT) ∧
      (∀ v, c.moreInfoSystemPrompt = some v → v ≠ "" →
        (ensureAgentConfiguration config).moreInfoSystemPrompt = v)) ∧
    ((c.generalSystemPrompt = none →
        (ensureAgentConfiguration config).generalSystemPrompt
          = GENERAL_SYSTEM_PROMPT) ∧
      (∀ v, c.generalSystemPrompt = some v → v ≠ "" →
        (ensureAgentConfiguration config).generalSystemPrompt = v)) ∧
    ((c.researchPlanSystemPrompt = none →
        (ensureAgentConfiguration config).researchPlanSystemPrompt
          = RESEARCH_PLAN_SYSTEM_PROMPT) ∧
      (∀ v, c.researchPlanSystemPrompt = some v → v ≠ "" →
        (ensureAgentConfiguration config).researchPlanSystemPrompt = v)) ∧
    ((c.generateQueriesSystemPrompt = none →
        (ensureAgentConfiguration config).generateQueriesSystemPrompt
          = GENERATE_QUERIES_SYSTEM_PROMPT) ∧
      (∀ v, c.generateQueriesSystemPrompt = some v → v ≠ "" →
        (ensureAgentConfiguration config).generateQueriesSystemPrompt = v)) ∧
    ((c.responseSystemPrompt = none →
        (ensureAgentConfiguration config).responseSystemPrompt
          = RESPONSE_SYSTEM_PROMPT) ∧
      (∀ v, c.responseSystemPrompt = some v → v ≠ "" →
        (ensureAgentConfiguration config).responseSystemPrompt = v)) := by
  refine ⟨⟨fun h => ?_, fun v hv hne => ?_⟩, ⟨fun h => ?_, fun v hv hne => ?_⟩,
    ⟨fun h => ?_, fun k hk => ?_⟩, ⟨fun h => ?_, fun v hv hne => ?_⟩,
    ⟨fun h => ?_, fun v hv hne => ?_⟩, ⟨fun h => ?_, fun v hv hne => ?_⟩,
    ⟨fun h => ?_, fun v hv hne => ?_⟩, ⟨fun h => ?_, fun v hv hne => ?_⟩,
    ⟨fun h => ?_, fun v hv hne => ?_⟩, ⟨fun h => ?_, fun v hv hne => ?_⟩,
    ⟨fun h => ?_, fun v hv hne => ?_⟩⟩ <;>
    simp_all [ensureBaseConfiguration, ensureAgentConfiguration, orDefaultStr]

/-- Witness for C5 (amended): a set non-empty option passes through, an
unset option takes its documented default. -/
theorem ensureConfiguration_defaults_amended_witness :
    (ensureBaseConfiguration { configurable := some configOneSet }).embeddingModel
        = "openai/text-embedding-3-small" ∧
    (ensureBaseConfiguration { configurable := some configOneSet }).retrieverProvider
        = "elastic-local" ∧
    (ensureAgentConfiguration { configurable := some configOneSet }).routerSystemPrompt
        = ROUTER_SYSTEM_PROMPT :=
  ⟨(ensureConfiguration_defaults_amended { configurable := some configOneSet }
        configOneSet rfl).1.2 "openai/text-embedding-3-small" rfl (by decide),
    (ensureConfiguration_defaults_amended { configurable := some configOneSet }
        configOneSet rfl).2.1.1 rfl,
    (ensureConfiguration_defaults_amended { configurable := some configOneSet }
        configOneSet rfl).2.2.2.2.2.1.1 rfl⟩

/-- C9: a recognized string option explicitly set to the empty string is
replaced by its documented default in both configuration constructors,
because defaulting tests falsiness rather than absence. -/
theorem ensureConfiguration_empty_string_defaults (c : Configurable) :
    (c.embeddingModel = some "" →
      (ensureBaseConfiguration { configurable := some c }).embeddingModel
        = "gemini/gemini-embedding-001") ∧
    (c.retrieverProvider = some "" →
      (ensureBaseConfiguration { configurable := some c }).retrieverProvider
        = "elastic-local") ∧
    (c.queryModel = some "" →
      (ensureAgentConfiguration { configurable := some c }).queryModel
        = "gemini/gemini-2.5-flash") ∧
    (c.responseModel = some "" →
      (ensureAgentConfiguration { configurable := some c }).responseModel
        = "gemini/gemini-2.5-flash") ∧
    (c.routerSystemPrompt = some "" →
      (ensureAgentConfiguration { configurable := some c }).routerSystemPrompt
        = ROUTER_SYSTEM_PROMPT) ∧
    (c.moreInfoSystemPrompt = some "" →
      (ensureAgentConfiguration { configurable := some c }).moreInfoSystemPrompt
        = MORE_INFO_SYSTEM_PROMPT) ∧
    (c.generalSystemPrompt = some "" →
      (ensureAgentConfiguration { configurable := some c }).generalSystemPrompt
        = GENERAL_SYSTEM_PROMPT) ∧
    (c.researchPlanSystemPrompt = some "" →
      (ensureAgentConfiguration { configurable := some c }).researchPlanSystemPrompt
        = RESEARCH_PLAN_SYSTEM_PROMPT) ∧
    (c.generateQueriesSystemPrompt = some "" →
      (ensureAgentConfiguration { configurable := some c }).generateQueriesSystemPrompt
        = GENERATE_QUERIES_SYSTEM_PROMPT) ∧
    (c.responseSystemPrompt = some "" →
      (ensureAgentConfiguration { configurable := some c }).responseSystemPrompt
        = RESPONSE_SYSTEM_PROMPT) := by
  refine ⟨fun h => ?_, fun h => ?_, fun h => ?_, fun h => ?_, fun h => ?_,
    fun h => ?_, fun h => ?_, fun h => ?_, fun h => ?_, fun h => ?_⟩ <;>
    simp_all [ensureBaseConfiguration, ensureAgentConfiguration, orDefaultStr]

/-- Witness for C9 on a configurable whose every string option is the empty
string. -/
theorem ensureConfiguration_empty_string_defaults_witness :
    (ensureBaseConfiguration { configurable := some configAllEmpty }).embeddingModel
        = "gemini/gemini-embedding-001" ∧
    (ensureBaseConfiguration { configurable := some configAllEmpty }).retrieverProvider
        = "elastic-local" ∧
    (ensureAgentConfiguration { configurable := some configAllEmpty }).routerSystemPrompt
        = ROUTER_SYSTEM_PROMPT ∧
    (ensureAgentConfiguration { configurable := some configAllEmpty }).responseSystemPrompt
        = RESPONSE_SYSTEM_PROMPT :=
  ⟨(ensureConfiguration_empty_string_defaults configAllEmpty).1 rfl,
    (ensureConfiguration_empty_string_defaults configAllEmpty).2.1 rfl,
    (ensureConfiguration_empty_string_defaults configAllEmpty).2.2.2.2.1 rfl,
    (ensureConfiguration_empty_string_defaults configAllEmpty).2.2.2.2.2.2.2.2.2 rfl⟩

/-- `queriesOf` distributes over trace concatenation. -/
theorem queriesOf_append (l₁ l₂ : List Event) :
    queriesOf (l₁ ++ l₂) = queriesOf l₁ ++ queriesOf l₂ := by
  induction l₁ with
  | nil => rfl
  | cons e rest ih => cases e <;> simp [queriesOf, ih]

/-- `indexDocs` never queries the store. -/
theorem indexDocs_queries_nil (env : Env) (fs : Fs) (store : Store)
    (state : IndexState) (config : Option RunnableConfig) :
    queriesOf (indexDocs env fs store state config).1 = [] := by
  cases config with
  | none => rfl
  | some c =>
    simp only [indexDocs]
    split
    · split
      · simp [queriesOf]
      · rcases indexAndReport_trace_cases env store c _
            [Event.fileRead (ensureIndexConfiguration c).docsFile] with h | h <;>
          rw [h] <;> simp [queriesOf, queriesOf_append]
    · rcases indexAndReport_trace_cases env store c state.docs [] with h | h <;>
        rw [h] <;> simp [queriesOf, queriesOf_append]

/-- An absent environment variable is falsy. -/
theorem envTruthy_none (env : Env) (name : String) (h : env name = none) :
    envTruthy env name = none := by
  simp [envTruthy, h]

/-- A string starting with a character other than `U` is never the
unrecognized-provider message. -/
theorem ne_unrecognized_of_head (s y : String) (c : Char) (l : List Char)
    (hs : s.data = c :: l) (hc : c ≠ 'U') :
    s ≠ "Unrecognized retrieverProvider in configuration: " ++ y := by
  intro h
  have hd := congrArg String.data h
  rw [String.data_append, hs] at hd
  have h2 : "Unrecognized retrieverProvider in configuration: ".data
      = 'U' :: "nrecognized retrieverProvider in configuration: ".data := rfl
  rw [h2] at hd
  simp only [List.cons_append, List.cons.injEq] at hd
  exact hc hd.1

/-- The unsupported-embedding-provider message is never the
unrecognized-retriever-provider message, whatever the suffixes. -/
theorem unsupported_ne_unrecognized (x y : String) :
    "Unsupported embedding provider: " ++ x
      ≠ "Unrecognized retrieverProvider in configuration: " ++ y := by
  intro h
  have hd := congrArg String.data h
  rw [String.data_append, String.data_append] at hd
  have h1 : "Unsupported embedding provider: ".data
      = 'U' :: 'n' :: 's' :: "upported embedding provider: ".data := rfl
  have h2 : "Unrecognized retrieverProvider in configuration: ".data
      = 'U' :: 'n' :: 'r' :: "ecognized retrieverProvider in configuration: ".data := rfl
  rw [h1, h2] at hd
  simp only [List.cons_append, List.cons.injEq] at hd
  exact absurd hd.2.2.1 (by decide)

/-- A `makeTextEmbeddings` failure carries the unsupported-provider message
for the parsed provider. -/
theorem makeTextEmbeddings_error_shape (name e : String)
    (h : makeTextEmbeddings name = Except.error e) :
    e = "Unsupported embedding provider: " ++ (parseModelName name).1 := by
  by_cases h1 : (parseModelName name).1 = "gemini" <;>
  by_cases h2 : (parseModelName name).1 = "openai" <;>
  by_cases h3 : (parseModelName name).1 = "cohere" <;>
    simp_all [makeTextEmbeddings]

/-- A missing `ELASTICSEARCH_URL` fails the Elasticsearch maker with its
message. -/
theorem makeElasticRetriever_missing_url (env : Env) (conf : BaseConfiguration)
    (emb : Embeddings) (h : env "ELASTICSEARCH_URL" = none) :
    makeElasticRetriever env conf emb
      = Except.error "ELASTICSEARCH_URL environment variable is not defined" := by
  unfold makeElasticRetriever
  rw [envTruthy_none env _ h]

/-- With the `elastic-local` provider, a missing user or password fails the
Elasticsearch maker. -/
theorem makeElasticRetriever_local_missing_auth (env : Env)
    (conf : BaseConfiguration) (emb : Embeddings)
    (hp : conf.retrieverProvider = "elastic-local")
    (h : env "ELASTICSEARCH_USER" = none ∨ env "ELASTICSEARCH_PASSWORD" = none) :
    exceptOk (makeElasticRetriever env conf emb) = false := by
  unfold makeElasticRetriever
  cases hu : envTruthy env "ELASTICSEARCH_URL" with
  | none => rfl
  | some url =>
    rw [if_pos hp]
    rcases h with h | h
    · rw [envTruthy_none env _ h]
      cases envTruthy env "ELASTICSEARCH_PASSWORD" <;> rfl
    · rw [envTruthy_none env _ h]
      cases envTruthy env "ELASTICSEARCH_USER" <;> rfl

/-- With a provider other than `elastic-local`, a missing API key fails the
Elasticsearch maker. -/
theorem makeElasticRetriever_nonlocal_missing_key (env : Env)
    (conf : BaseConfiguration) (emb : Embeddings)
    (hp : conf.retrieverProvider ≠ "elastic-local")
    (h : env "ELASTICSEARCH_API_KEY" = none) :
    exceptOk (makeElasticRetriever env conf emb) = false := by
  unfold makeElasticRetriever
  cases hu : envTruthy env "ELASTICSEARCH_URL" with
  | none => rfl
  | some url =>
    rw [if_neg hp, envTruthy_none env _ h]
    rfl

/-- A missing `PINECONE_INDEX_NAME` fails the Pinecone maker with its
message. -/
theorem makePineconeRetriever_missing (env : Env) (conf : BaseConfiguration)
    (emb : Embeddings) (h : env "PINECONE_INDEX_NAME" = none) :
    makePineconeRetriever env conf emb
      = Except.error "PINECONE_INDEX_NAME environment variable is not defined" := by
  unfold makePineconeRetriever
  rw [envTruthy_none env _ h]

/-- A missing `MONGODB_URI` fails the MongoDB maker with its message. -/
theorem makeMongoDBRetriever_missing (env : Env) (conf : BaseConfiguration)
    (emb : Embeddings) (h : env "MONGODB_URI" = none) :
    makeMongoDBRetriever env conf emb
      = Except.error "MONGODB_URI environment variable is not defined" := by
  unfold makeMongoDBRetriever
  rw [envTruthy_none env _ h]

/-- When building the embeddings fails, `makeRetriever` propagates that
error. -/
theorem makeRetriever_emb_error (env : Env) (config : RunnableConfig) (e : String)
    (hemb : makeTextEmbeddings (ensureBaseConfiguration config).embeddingModel
      = Except.error e) :
    makeRetriever env config = Except.error e := by
  unfold makeRetriever
  rw [hemb]

/-- When the embeddings are built, `makeRetriever` reduces to the
provider dispatch. -/
theorem makeRetriever_dispatch (env : Env) (config : RunnableConfig)
    (emb : Embeddings)
    (hemb : makeTextEmbeddings (ensureBaseConfiguration config).embeddingModel
      = Except.ok emb) :
    makeRetriever env config
      = (if (ensureBaseConfiguration config).retrieverProvider = "elastic"
            ∨ (ensureBaseConfiguration config).retrieverProvider = "elastic-local" then
          makeElasticRetriever env (ensureBaseConfiguration config) emb
        else if (ensureBaseConfiguration config).retrieverProvider = "pinecone" then
          makePineconeRetriever env (ensureBaseConfiguration config) emb
        else if (ensureBaseConfiguration config).retrieverProvider = "mongodb" then
          makeMongoDBRetriever env (ensureBaseConfiguration config) emb
        else
          Except.error
            ("Unrecognized retrieverProvider in configuration: "
              ++ (ensureBaseConfiguration config).retrieverProvider)) := by
  unfold makeRetriever
  rw [hemb]

/-- C2: when a required credential environment variable for the selected
`retrieverProvider` is absent, `makeRetriever` fails — no retriever is
produced — and the indexing operation adds no document to and queries no
document from the store under that configuration. -/
theorem makeRetriever_missing_credential_fails (env : Env)
    (config : RunnableConfig) (fs : Fs) (store : Store) (state : IndexState)
    (h : requiredCredentialMissing
      (ensureBaseConfiguration config).retrieverProvider env) :
    exceptOk (makeRetriever env config) = false ∧
    addsOf (indexDocs env fs store state (some config)).1 = [] ∧
    queriesOf (indexDocs env fs store state (some config)).1 = [] := by
  have hfail : exceptOk (makeRetriever env config) = false := by
    cases hemb : makeTextEmbeddings (ensureBaseConfiguration config).embeddingModel with
    | error e => rw [makeRetriever_emb_error env config e hemb]; rfl
    | ok emb =>
      rw [makeRetriever_dispatch env config emb hemb]
      rcases h with ⟨hp, hmiss⟩ | ⟨hp, hmiss⟩ | ⟨hp, hmiss⟩ | ⟨hp, hmiss⟩
      · rw [if_pos (Or.inr hp)]
        rcases hmiss with h1 | h1 | h1
        · rw [makeElasticRetriever_missing_url env _ emb h1]; rfl
        · exact makeElasticRetriever_local_missing_auth env _ emb hp (Or.inl h1)
        · exact makeElasticRetriever_local_missing_auth env _ emb hp (Or.inr h1)
      · rw [if_pos (Or.inl hp)]
        rcases hmiss with h1 | h1
        · rw [makeElasticRetriever_missing_url env _ emb h1]; rfl
        · exact makeElasticRetriever_nonlocal_missing_key env _ emb
            (by rw [hp]; decide) h1
      · rw [if_neg (by rw [hp]; decide), if_pos hp]
        rw [makePineconeRetriever_missing env _ emb hmiss]; rfl
      · rw [if_neg (by rw [hp]; decide), if_neg (by rw [hp]; decide), if_pos hp]
        rw [makeMongoDBRetriever_missing env _ emb hmiss]; rfl
  exact ⟨hfail, indexDocs_adds_of_retriever_err env fs store state config hfail,
    indexDocs_queries_nil env fs store state (some config)⟩

/-- Witness for C2: with every environment variable absent and the default
`elastic-local` provider, retriever construction fails and indexing adds
and queries nothing. -/
theorem makeRetriever_missing_credential_fails_witness :
    exceptOk (makeRetriever envEmpty configDefaults) = false ∧
    addsOf (indexDocs envEmpty fsSample storeOk { docs := [] }
        (some configDefaults)).1 = [] ∧
    queriesOf (indexDocs envEmpty fsSample storeOk { docs := [] }
        (some configDefaults)).1 = [] :=
  makeRetriever_missing_credential_fails envEmpty configDefaults fsSample storeOk
    { docs := [] } (Or.inl ⟨rfl, Or.inl rfl⟩)

/-- Every Elasticsearch-maker failure carries one of its three
missing-variable messages. -/
theorem makeElasticRetriever_error_shape (env : Env) (conf : BaseConfiguration)
    (emb : Embeddings) (e : String)
    (h : makeElasticRetriever env conf emb = Except.error e) :
    e = "ELASTICSEARCH_URL environment variable is not defined" ∨
    e = "ELASTICSEARCH_USER or ELASTICSEARCH_PASSWORD environment variable is not defined" ∨
    e = "ELASTICSEARCH_API_KEY environment variable is not defined" := by
  unfold makeElasticRetriever at h
  cases hu : envTruthy env "ELASTICSEARCH_URL" with
  | none =>
    rw [hu] at h
    simp only [Except.error.injEq] at h
    exact Or.inl h.symm
  | some url =>
    rw [hu] at h
    by_cases hp : conf.retrieverProvider = "elastic-local"
    · rw [if_pos hp] at h
      cases hus : envTruthy env "ELASTICSEARCH_USER" with
      | none =>
        rw [hus] at h
        cases hpw : envTruthy env "ELASTICSEARCH_PASSWORD" with
        | none => rw [hpw] at h; simp at h; exact Or.inr (Or.inl h.symm)
        | some pw => rw [hpw] at h; simp at h; exact Or.inr (Or.inl h.symm)
      | some user =>
        rw [hus] at h
        cases hpw : envTruthy env "ELASTICSEARCH_PASSWORD" with
        | none => rw [hpw] at h; simp at h; exact Or.inr (Or.inl h.symm)
        | some pw => rw [hpw] at h; simp at h
    · rw [if_neg hp] at h
      cases hk : envTruthy env "ELASTICSEARCH_API_KEY" with
      | none => rw [hk] at h; simp at h; exact Or.inr (Or.inr h.symm)
      | some key => rw [hk] at h; simp at h

/-- A successfully constructed Elasticsearch retriever talks to the
elastic backend. -/
theorem makeElasticRetriever_ok_backend (env : Env) (conf : BaseConfiguration)
    (emb : Embeddings) (r : Retriever)
    (h : makeElasticRetriever env conf emb = Except.ok r) :
    r.backend = Backend.elastic := by
  unfold makeElasticRetriever at h
  cases hu : envTruthy env "ELASTICSEARCH_URL" with
  | none => rw [hu] at h; simp at h
  | some url =>
    rw [hu] at h
    by_cases hp : conf.retrieverProvider = "elastic-local"
    · rw [if_pos hp] at h
      cases hus : envTruthy env "ELASTICSEARCH_USER" with
      | none => rw [hus] at h; simp at h
      | some user =>
        rw [hus] at h
        cases hpw : envTruthy env "ELASTICSEARCH_PASSWORD" with
        | none => rw [hpw] at h; simp at h
        | some pw => rw [hpw] at h; simp at h; subst h; rfl
    · rw [if_neg hp] at h
      cases hk : envTruthy env "ELASTICSEARCH_API_KEY" with
      | none => rw [hk] at h; simp at h
      | some key => rw [hk] at h; simp at h; subst h; rfl

/-- Every Pinecone-maker failure carries its missing-variable message. -/
theorem makePineconeRetriever_error_shape (env : Env) (conf : BaseConfiguration)
    (emb : Embeddings) (e : String)
    (h : makePineconeRetriever env conf emb = Except.error e) :
    e = "PINECONE_INDEX_NAME environment variable is not defined" := by
  unfold makePineconeRetriever at h
  cases hk : envTruthy env "PINECONE_INDEX_NAME" with
  | none => rw [hk] at h; simp at h; exact h.symm
  | some idx => rw [hk] at h; simp at h

/-- A successfully constructed Pinecone retriever talks to the pinecone
backend. -/
theorem makePineconeRetriever_ok_backend (env : Env) (conf : BaseConfiguration)
    (emb : Embeddings) (r : Retriever)
    (h : makePineconeRetriever env conf emb = Except.ok r) :
    r.backend = Backend.pinecone := by
  unfold makePineconeRetriever at h
  cases hk : envTruthy env "PINECONE_INDEX_NAME" with
  | none => rw [hk] at h; simp at h
  | some idx => rw [hk] at h; simp at h; subst h; rfl

/-- Every MongoDB-maker failure carries its missing-variable message. -/
theorem makeMongoDBRetriever_error_shape (env : Env) (conf : BaseConfiguration)
    (emb : Embeddings) (e : String)
    (h : makeMongoDBRetriever env conf emb = Except.error e) :
    e = "MONGODB_URI environment variable is not defined" := by
  unfold makeMongoDBRetriever at h
  cases hk : envTruthy env "MONGODB_URI" with
  | none => rw [hk] at h; simp at h; exact h.symm
  | some uri => rw [hk] at h; simp at h

/-- A successfully constructed MongoDB retriever talks to the mongodb
backend. -/
theorem makeMongoDBRetriever_ok_backend (env : Env) (conf : BaseConfiguration)
    (emb : Embeddings) (r : Retriever)
    (h : makeMongoDBRetriever env conf emb = Except.ok r) :
    r.backend = Backend.mongodb := by
  unfold makeMongoDBRetriever at h
  cases hk : envTruthy env "MONGODB_URI" with
  | none => rw [hk] at h; simp at h
  | some uri => rw [hk] at h; simp at h; subst h; rfl

/-- For an enumerated provider, every `makeRetriever` failure message is
either the unsupported-embedding-provider message or one of the
sub-makers' missing-variable messages. -/
theorem makeRetriever_error_shape (env : Env) (config : RunnableConfig)
    (e : String)
    (hmem : (ensureBaseConfiguration config).retrieverProvider ∈ enumeratedProviders)
    (h : makeRetriever env config = Except.error e) :
    (∃ x, e = "Unsupported embedding provider: " ++ x) ∨
    e = "ELASTICSEARCH_URL environment variable is not defined" ∨
    e = "ELASTICSEARCH_USER or ELASTICSEARCH_PASSWORD environment variable is not defined" ∨
    e = "ELASTICSEARCH_API_KEY environment variable is not defined" ∨
    e = "PINECONE_INDEX_NAME environment variable is not defined" ∨
    e = "MONGODB_URI environment variable is not defined" := by
  cases hemb : makeTextEmbeddings (ensureBaseConfiguration config).embeddingModel with
  | error e' =>
    rw [makeRetriever_emb_error env config e' hemb] at h
    simp only [Except.error.injEq] at h
    subst h
    exact Or.inl ⟨_, makeTextEmbeddings_error_shape _ _ hemb⟩
  | ok emb =>
    rw [makeRetriever_dispatch env config emb hemb] at h
    simp only [enumeratedProviders, List.mem_cons, List.not_mem_nil,
      or_false] at hmem
    rcases hmem with hp | hp | hp | hp
    · rw [if_pos (Or.inl hp)] at h
      rcases makeElasticRetriever_error_shape env _ emb e h with h1 | h1 | h1
      · exact Or.inr (Or.inl h1)
      · exact Or.inr (Or.inr (Or.inl h1))
      · exact Or.inr (Or.inr (Or.inr (Or.inl h1)))
    · rw [if_pos (Or.inr hp)] at h
      rcases makeElasticRetriever_error_shape env _ emb e h with h1 | h1 | h1
      · exact Or.inr (Or.inl h1)
      · exact Or.inr (Or.inr (Or.inl h1))
      · exact Or.inr (Or.inr (Or.inr (Or.inl h1)))
    · rw [if_neg (by rw [hp]; decide), if_pos hp] at h
      exact Or.inr (Or.inr (Or.inr (Or.inr
        (Or.inl (makePineconeRetriever_error_shape env _ emb e h)))))
    · rw [if_neg (by rw [hp]; decide), if_neg (by rw [hp]; decide),
        if_pos hp] at h
      exact Or.inr (Or.inr (Or.inr (Or.inr
        (Or.inr (makeMongoDBRetriever_error_shape env _ emb e h)))))

/-- Every retriever `makeRetriever` produces talks to the backend the
provider dispatch associates with the configured provider. -/
theorem makeRetriever_ok_backend (env : Env) (config : RunnableConfig)
    (r : Retriever) (h : makeRetriever env config = Except.ok r) :
    some r.backend
      = providerBackend (ensureBaseConfiguration config).retrieverProvider := by
  cases hemb : makeTextEmbeddings (ensureBaseConfiguration config).embeddingModel with
  | error e' => rw [makeRetriever_emb_error env config e' hemb] at h; simp at h
  | ok emb =>
    rw [makeRetriever_dispatch env config emb hemb] at h
    by_cases h1 : (ensureBaseConfiguration config).retrieverProvider = "elastic"
        ∨ (ensureBaseConfiguration config).retrieverProvider = "elastic-local"
    · rw [if_pos h1] at h
      unfold providerBackend
      rw [if_pos h1, makeElasticRetriever_ok_backend env _ emb r h]
    · rw [if_neg h1] at h
      by_cases h2 : (ensureBaseConfiguration config).retrieverProvider = "pinecone"
      · rw [if_pos h2] at h
        unfold providerBackend
        rw [if_neg h1, if_pos h2, makePineconeRetriever_ok_backend env _ emb r h]
      · rw [if_neg h2] at h
        by_cases h3 : (ensureBaseConfiguration config).retrieverProvider = "mongodb"
        · rw [if_pos h3] at h
          unfold providerBackend
          rw [if_neg h1, if_neg h2, if_pos h3,
            makeMongoDBRetriever_ok_backend env _ emb r h]
        · rw [if_neg h3] at h; simp at h

/-- C4: `makeRetriever` dispatches on `retrieverProvider` to exactly one
backend — both Elasticsearch providers to the elastic backend, `pinecone`
to pinecone, `mongodb` to mongodb — fails for every provider value outside
the enumerated set, and for an enumerated provider never produces the
unrecognized-provider error. -/
theorem makeRetriever_backend_dispatch (env : Env) (config : RunnableConfig) :
    ((ensureBaseConfiguration config).retrieverProvider ∉ enumeratedProviders →
      exceptOk (makeRetriever env config) = false) ∧
    ((ensureBaseConfiguration config).retrieverProvider ∈ enumeratedProviders →
      (∀ r, makeRetriever env config = Except.ok r →
        some r.backend
          = providerBackend (ensureBaseConfiguration config).retrieverProvider) ∧
      makeRetriever env config
        ≠ Except.error ("Unrecognized retrieverProvider in configuration: "
            ++ (ensureBaseConfiguration config).retrieverProvider)) := by
  constructor
  · intro hmem
    simp only [enumeratedProviders, List.mem_cons, List.not_mem_nil, or_false,
      not_or] at hmem
    obtain ⟨h1, h2, h3, h4⟩ := hmem
    cases hemb : makeTextEmbeddings (ensureBaseConfiguration config).embeddingModel with
    | error e' => rw [makeRetriever_emb_error env config e' hemb]; rfl
    | ok emb =>
      rw [makeRetriever_dispatch env config emb hemb,
        if_neg (fun hor => hor.elim h1 h2), if_neg h3, if_neg h4]
      rfl
  · intro hmem
    refine ⟨fun r hr => makeRetriever_ok_backend env config r hr,
      fun hcontra => ?_⟩
    rcases makeRetriever_error_shape env config _ hmem hcontra
      with ⟨x, hx⟩ | hx | hx | hx | hx | hx
    · exact unsupported_ne_unrecognized x _ hx.symm
    · exact ne_unrecognized_of_head _ _ 'E' _ rfl (by decide) hx.symm
    · exact ne_unrecognized_of_head _ _ 'E' _ rfl (by decide) hx.symm
    · exact ne_unrecognized_of_head _ _ 'E' _ rfl (by decide) hx.symm
    · exact ne_unrecognized_of_head _ _ 'P' _ rfl (by decide) hx.symm
    · exact ne_unrecognized_of_head _ _ 'M' _ rfl (by decide) hx.symm

/-- Witness for C4: the default `elastic-local` provider is enumerated and
dispatches to a concrete elastic-backend retriever, and the out-of-set
provider `chroma` makes construction fail. -/
theorem makeRetriever_backend_dispatch_witness :
    some (Retriever.elastic "http://localhost:9200"
        (ElasticAuth.basic "elastic" "password") "langchain_index"
        (Embeddings.gemini "gemini-embedding-001") []).backend
      = providerBackend (ensureBaseConfiguration configDefaults).retrieverProvider ∧
    makeRetriever envFull configDefaults
      ≠ Except.error ("Unrecognized retrieverProvider in configuration: "
          ++ (ensureBaseConfiguration configDefaults).retrieverProvider) ∧
    exceptOk (makeRetriever envFull
      { configurable := some { retrieverProvider := some "chroma" } }) = false :=
  ⟨((makeRetriever_backend_dispatch envFull configDefaults).2 (by decide)).1 _ rfl,
    ((makeRetriever_backend_dispatch envFull configDefaults).2 (by decide)).2,
    (makeRetriever_backend_dispatch envFull
      { configurable := some { retrieverProvider := some "chroma" } }).1 (by decide)⟩

end LanggraphStack
